import Mathlib

/-!
Verification development for the PhishingDetentionExtension backend
(`backend/phishing_backend.py`), a Flask service with one endpoint
`POST /analyze` that extracts text and links from submitted email HTML,
scans each link with the VirusTotal API, asks an OpenAI chat model for a
phishing score, and returns both results as JSON.

Shallow embedding conventions:
* JSON values (Python dicts/lists/strings/ints as they appear in API
  responses and `jsonify` bodies) are modelled by the inductive `JValue`.
  Python dicts are association lists `List (String × JValue)`.
* Network calls (`requests.post`, `requests.get`, `openai.ChatCompletion.create`)
  are oracles passed in as parameters; a call that raises an exception, or a
  `response.json()` that raises, is an `Except.error` with the exception
  message.  The oracle for the link scanner takes the loop-iteration index so
  that two submissions of the same URL may answer differently (the real
  service is stateful), which is what makes last-write-wins observable.
* Python statements that can raise are modelled in the `Except String` monad;
  a `try/except Exception` boundary in the source is a `match` that turns
  `Except.error` into the handler's value.
-/

/-- JSON values, as produced by `response.json()` / consumed by `jsonify`.
Numbers are modelled as integers (every number appearing in the claims and in
the code paths under study is an `int`). -/
inductive JValue : Type where
  | null : JValue
  | bool : Bool → JValue
  | int : Int → JValue
  | str : String → JValue
  | arr : List JValue → JValue
  | obj : List (String × JValue) → JValue

namespace JValue

/-- Python `k in d` for a JSON value `d`: true iff `d` is a dict containing
key `k`.  (Python `in` on a JSON list/string means element/substring
containment instead; the responses exercised by the code under study are
dicts at every membership test, and the model's `false` on non-dicts agrees
with Python whenever the tested key is not an element/substring.) -/
def hasKey (v : JValue) (k : String) : Bool :=
  match v with
  | .obj fields => fields.any (fun p => p.1 == k)
  | _ => false

/-- First binding of key `k` in a dict value, if any. -/
def getOpt (v : JValue) (k : String) : Option JValue :=
  match v with
  | .obj fields => (fields.find? (fun p => p.1 == k)).map Prod.snd
  | _ => none

/-- Python subscript `v[k]` for a string key: raises `KeyError` when the dict
lacks the key and `TypeError` when `v` is not a dict. -/
def index (v : JValue) (k : String) : Except String JValue :=
  match v.getOpt k with
  | some w => .ok w
  | none => .error (if v.hasKey k then "unreachable" else
      match v with
      | .obj _ => "KeyError: " ++ k
      | _ => "TypeError: value is not subscriptable by string")

/-- Python subscript `v[0]` on the first element: raises when `v` is not a
non-empty JSON array. -/
def indexHead (v : JValue) : Except String JValue :=
  match v with
  | .arr (x :: _) => .ok x
  | .arr [] => .error "IndexError: list index out of range"
  | _ => .error "TypeError: value is not subscriptable by int"

/-- Python `v.get(k, default)`: total on dicts, raises `AttributeError` on
anything else. -/
def dictGet (v : JValue) (k : String) (default : JValue) : Except String JValue :=
  match v with
  | .obj _ => .ok ((v.getOpt k).getD default)
  | _ => .error "AttributeError: value has no attribute get"

end JValue

/-- Python dict assignment `d[k] = v`: replaces the value at the first
binding of `k` when one is present (keeping its position), appends at the
end otherwise.  (A Python dict never holds a key twice, so replacing the
first binding is exact.) -/
def dictInsert : List (String × JValue) → String → JValue →
    List (String × JValue)
  | [], k, v => [(k, v)]
  | p :: d, k, v => if p.1 == k then (k, v) :: d else p :: dictInsert d k v

/-- Lookup in the association-list model of a Python dict. -/
def dictFind : List (String × JValue) → String → Option JValue
  | [], _ => none
  | p :: d, k => if p.1 == k then some p.2 else dictFind d k

/-- Python `s.startswith(pre)`: prefix test on the character sequence. -/
def pyStartswith (s pre : String) : Bool :=
  pre.data.isPrefixOf s.data

/-- Link normalization from `scan_links_with_virustotal`:
`if not link.startswith("http://") and not link.startswith("https://"):
link = "https://" + link`. -/
def normalize_link (link : String) : String :=
  if ¬ pyStartswith link "http://" ∧ ¬ pyStartswith link "https://" then
    "https://" ++ link
  else link

/-- The two network oracles used by `scan_links_with_virustotal`.
`submit i url` is the outcome of `requests.post(...).json()` for the `i`-th
loop iteration, submitting `url`; `details i analysisId` is the outcome of
`requests.get(.../analyses/{analysisId}).json()`.  An `Except.error` models
the request or the `.json()` decoding raising an exception. -/
structure VtEnv : Type where
  submit : Nat → String → Except String JValue
  details : Nat → JValue → Except String JValue

/-- The body of one iteration of the `for link in links` loop of
`scan_links_with_virustotal`: the value recorded for this link, or the
exception that iteration raises.  Mirrors the source line by line:

* normalize the link;
* `response_data = requests.post(...).json()`;
* `if 'data' in response_data and 'id' in response_data['data']:` fetch the
  details with the analysis id, and
  `if 'data' in details_data and 'attributes' in details_data['data']:` read
  `details_data['data']['attributes']['stats']` (an unguarded subscript) and
  build the counts dict with `stats.get(key, 0)` defaults,
  `else` record `{"error": "Details not found"}`;
* `else` record `{"error": "Submission failed"}`. -/
def scanOne (env : VtEnv) (i : Nat) (link : String) : Except String JValue := do
  let response_data ← env.submit i (normalize_link link)
  bif response_data.hasKey "data" &&
      ((response_data.getOpt "data").getD .null).hasKey "id" then do
    let details_data ← env.details i
      (((response_data.getOpt "data").getD .null).getOpt "id" |>.getD .null)
    bif details_data.hasKey "data" &&
        ((details_data.getOpt "data").getD .null).hasKey "attributes" then do
      let stats ← (((details_data.getOpt "data").getD .null).getOpt
        "attributes" |>.getD .null).index "stats"
      let malicious ← stats.dictGet "malicious" (.int 0)
      let suspicious ← stats.dictGet "suspicious" (.int 0)
      let undetected ← stats.dictGet "undetected" (.int 0)
      pure (.obj [("malicious", malicious), ("suspicious", suspicious),
        ("undetected", undetected)])
    else
      pure (.obj [("error", .str "Details not found")])
  else
    pure (.obj [("error", .str "Submission failed")])

/-- The loop of `scan_links_with_virustotal`, threading the
`analysis_results` dict; `i` is the iteration index consumed by the oracle. -/
def scanGo (env : VtEnv) : Nat → List String → List (String × JValue) →
    Except String (List (String × JValue))
  | _, [], acc => .ok acc
  | i, link :: rest, acc =>
    match scanOne env i link with
    | .error e => .error e
    | .ok v => scanGo env (i + 1) rest (dictInsert acc (normalize_link link) v)

/-- `scan_links_with_virustotal(links)`: starts from the empty
`analysis_results` dict and runs the loop; an exception anywhere in the loop
propagates out of the function. -/
def scan_links_with_virustotal (env : VtEnv) (links : List String) :
    Except String (List (String × JValue)) :=
  scanGo env 0 links []

/-! ## Markup extraction (`extract_email_data`)

`extract_email_data` runs BeautifulSoup's lenient `html.parser` and then
collects `soup.get_text(strip=True)` and
`[a['href'] for a in soup.find_all('a', href=True)]`.  The lenient
string-to-tree parse is not embedded; the embedding works on the parsed tree.
Two facts of the bs4/html.parser stack are reflected in the model:

* the `html.parser` tree builder replaces a valueless or `None` attribute
  value by the empty string (`value = value or ''`), so attribute values in
  the tree are plain strings and `<a href>` carries `href=""`;
* the filter `href=True` matches any tag on which the attribute is present,
  whatever its value — `True` matches any non-`None` attribute value — so an
  anchor with `href=""` is matched and contributes `""` to the list. -/

/-- A parsed HTML node: a text fragment, or an element with a tag name,
attributes (values already defaulted to `""` by the tree builder) and
children. -/
inductive HtmlNode : Type where
  | text : String → HtmlNode
  | elem : String → List (String × String) → List HtmlNode → HtmlNode

/-- `[a['href'] for a in soup.find_all('a', href=True)]`: the `href` values of
all anchor elements carrying an `href` attribute, in document (pre-)order,
duplicates preserved. -/
def findAllHrefs : List HtmlNode → List String
  | [] => []
  | .text _ :: rest => findAllHrefs rest
  | .elem tag attrs children :: rest =>
    (if tag == "a" && attrs.any (fun p => p.1 == "href") then
      [(((attrs.find? (fun p => p.1 == "href")).map Prod.snd).getD "")]
    else []) ++ findAllHrefs children ++ findAllHrefs rest

/-- Python `str.strip()`: drop leading and trailing whitespace. -/
def pyStrip (s : String) : String :=
  String.mk (((s.data.dropWhile Char.isWhitespace).reverse.dropWhile
    Char.isWhitespace).reverse)

/-- The stripped text fragments of the document in order, whitespace-only
fragments omitted, as `get_text(strip=True)` collects them. -/
def strippedTexts : List HtmlNode → List String
  | [] => []
  | .text s :: rest =>
    (if pyStrip s == "" then [] else [pyStrip s]) ++ strippedTexts rest
  | .elem _ _ children :: rest => strippedTexts children ++ strippedTexts rest

/-- `extract_email_data` on the parsed tree: `soup.get_text(strip=True)` and
the anchor `href` list. -/
def extract_email_data (doc : List HtmlNode) : String × List String :=
  (String.join (strippedTexts doc), findAllHrefs doc)

/-- Number of anchor elements in the document that carry an `href` attribute
(with any value, the empty string included). -/
def countAnchorsWithHref : List HtmlNode → Nat
  | [] => 0
  | .text _ :: rest => countAnchorsWithHref rest
  | .elem tag attrs children :: rest =>
    (if tag == "a" && attrs.any (fun p => p.1 == "href") then 1 else 0) +
      countAnchorsWithHref children + countAnchorsWithHref rest

/-- Modelled from the spec: "the number of anchor elements with a non-empty
`href`" — the count the spec claims equals the length of `links`.  Kept
separate from the source-side `countAnchorsWithHref` for comparison. -/
def specCountAnchorsNonEmptyHref : List HtmlNode → Nat
  | [] => 0
  | .text _ :: rest => specCountAnchorsNonEmptyHref rest
  | .elem tag attrs children :: rest =>
    (if tag == "a" &&
        attrs.any (fun p => p.1 == "href" && !(p.2 == "")) then 1 else 0) +
      specCountAnchorsNonEmptyHref children + specCountAnchorsNonEmptyHref rest

/-- Number of anchor elements in the document, `href` or not. -/
def countAnchors : List HtmlNode → Nat
  | [] => 0
  | .text _ :: rest => countAnchors rest
  | .elem tag _ children :: rest =>
    (if tag == "a" then 1 else 0) + countAnchors children + countAnchors rest

/-! ## Risk assessment (`analyze_with_chatgpt`)

The model reply content string goes through `.strip()`, `json.loads`, and a
`["phishingScore"]` subscript, all inside one `try/except Exception` whose
handler returns `{"error": f"OpenAI API error: {e}"}`.  `json.loads` is
embedded as a recursive-descent parser over the character list.  JSON numbers
with a fraction or exponent part are rejected by the embedded parser (the
code paths and claims under study only ever carry integer scores). -/

/-- JSON whitespace skipping (space, tab, newline, carriage return). -/
def jsonWs (s : List Char) : List Char :=
  s.dropWhile (fun c => c == ' ' || c == '\t' || c == '\n' || c == '\r')

/-- Decode a JSON string-escape character; `none` for unsupported escapes
(`\uXXXX` is not modelled). -/
def jsonEscTable : List (Char × Char) :=
  [('n', '\n'), ('t', '\t'), ('r', '\r'), ('"', '"'), ('\\', '\\'),
   ('/', '/'), ('b', '\x08'), ('f', '\x0c')]

def jsonEsc (c : Char) : Option Char :=
  (jsonEscTable.find? (fun p => p.1 == c)).map Prod.snd

/-- Parse the body of a JSON string (the opening quote already consumed),
returning the decoded characters and the remaining input. -/
def parseJsonStringAux : List Char → Except String (List Char × List Char)
  | [] => .error "json: unterminated string"
  | c :: rest =>
    if c == '"' then .ok ([], rest)
    else if c == '\\' then
      match rest with
      | [] => .error "json: unterminated escape"
      | e :: rest2 =>
        match jsonEsc e with
        | some ec => (parseJsonStringAux rest2).map (fun p => (ec :: p.1, p.2))
        | none => .error "json: unsupported escape"
    else (parseJsonStringAux rest).map (fun p => (c :: p.1, p.2))

/-- Digits-to-integer accumulator for the number parser. -/
def digitsToNat (ds : List Char) : Nat :=
  ds.foldl (fun n c => n * 10 + (c.toNat - '0'.toNat)) 0

mutual

/-- Parse one JSON value; `fuel` bounds the recursion depth (called with more
fuel than the input length, so genuine inputs never exhaust it). -/
def parseJsonValue : Nat → List Char → Except String (JValue × List Char)
  | 0, _ => .error "json: fuel exhausted"
  | fuel + 1, s =>
    match jsonWs s with
    | [] => .error "json: unexpected end of input"
    | c :: rest =>
      if c == '"' then
        (parseJsonStringAux rest).map (fun p => (.str (String.mk p.1), p.2))
      else if c == '\x7b' then parseJsonMembers fuel (jsonWs rest) true
      else if c == '[' then parseJsonElements fuel (jsonWs rest) true
      else if c == 't' then
        bif rest.take 3 == "rue".data then .ok (.bool true, rest.drop 3)
        else .error "json: invalid literal"
      else if c == 'f' then
        bif rest.take 4 == "alse".data then .ok (.bool false, rest.drop 4)
        else .error "json: invalid literal"
      else if c == 'n' then
        bif rest.take 3 == "ull".data then .ok (.null, rest.drop 3)
        else .error "json: invalid literal"
      else if c == '-' || c.isDigit then
        let (neg, digits, rest2) :=
          if c == '-' then
            let p := rest.span Char.isDigit
            (true, p.1, p.2)
          else
            let p := (c :: rest).span Char.isDigit
            (false, p.1, p.2)
        if digits.isEmpty then .error "json: invalid number"
        else match rest2 with
          | d :: _ =>
            if d == '.' || d == 'e' || d == 'E' then
              .error "json: non-integer numbers not modelled"
            else
              .ok (.int (if neg then -(digitsToNat digits : Int)
                else (digitsToNat digits : Int)), rest2)
          | [] =>
            .ok (.int (if neg then -(digitsToNat digits : Int)
              else (digitsToNat digits : Int)), [])
      else .error "json: unexpected character"

/-- Parse the members of a JSON object, the opening brace and leading
whitespace already consumed; `first` is true before the first member. -/
def parseJsonMembers : Nat → List Char → Bool →
    Except String (JValue × List Char)
  | 0, _, _ => .error "json: fuel exhausted"
  | _ + 1, [], _ => .error "json: unterminated object"
  | fuel + 1, c :: rest, first =>
    if c == '\x7d' && first then .ok (.obj [], rest)
    else
      match (if c == '"' then Except.ok rest
          else Except.error "json: expected property name") with
      | .error e => .error e
      | .ok afterQuote =>
        match parseJsonStringAux afterQuote with
        | .error e => .error e
        | .ok (keyChars, rest2) =>
          match jsonWs rest2 with
          | ':' :: rest3 =>
            match parseJsonValue fuel rest3 with
            | .error e => .error e
            | .ok (v, rest4) =>
              match jsonWs rest4 with
              | ',' :: rest5 =>
                match parseJsonMembers fuel (jsonWs rest5) false with
                | .ok (.obj fields, rest6) =>
                  .ok (.obj ((String.mk keyChars, v) :: fields), rest6)
                | .ok _ => .error "json: impossible object shape"
                | .error e => .error e
              | '\x7d' :: rest5 =>
                .ok (.obj [(String.mk keyChars, v)], rest5)
              | _ => .error "json: expected comma or closing brace"
          | _ => .error "json: expected colon"

/-- Parse the elements of a JSON array, the opening bracket and leading
whitespace already consumed; `first` is true before the first element. -/
def parseJsonElements : Nat → List Char → Bool →
    Except String (JValue × List Char)
  | 0, _, _ => .error "json: fuel exhausted"
  | _ + 1, [], _ => .error "json: unterminated array"
  | fuel + 1, c :: rest, first =>
    if c == ']' && first then .ok (.arr [], rest)
    else
      match parseJsonValue fuel (c :: rest) with
      | .error e => .error e
      | .ok (v, rest2) =>
        match jsonWs rest2 with
        | ',' :: rest3 =>
          match parseJsonElements fuel (jsonWs rest3) false with
          | .ok (.arr elems, rest4) => .ok (.arr (v :: elems), rest4)
          | .ok _ => .error "json: impossible array shape"
          | .error e => .error e
        | ']' :: rest3 => .ok (.arr [v], rest3)
        | _ => .error "json: expected comma or closing bracket"

end

/-- `json.loads`: parse a complete JSON document, rejecting trailing
garbage. -/
def json_loads (s : String) : Except String JValue :=
  match parseJsonValue (s.length + 1) s.data with
  | .error e => .error e
  | .ok (v, rest) =>
    if (jsonWs rest).isEmpty then .ok v else .error "json: extra data"

/-- The raising part of `analyze_with_chatgpt`, i.e. the body of its `try`:
the oracle outcome of `openai.ChatCompletion.create` (an `Except.error`
models the call raising), then
`response['choices'][0]['message']['content']`, `.strip()`, `json.loads`,
and `response_json["phishingScore"]`. -/
def analyze_with_chatgpt_body (response : Except String JValue) :
    Except String JValue := do
  let resp ← response
  let choices ← resp.index "choices"
  let choice0 ← choices.indexHead
  let message ← choice0.index "message"
  let content ← message.index "content"
  let contentStr ← match content with
    | .str s => Except.ok s
    | _ => Except.error "AttributeError: content has no attribute strip"
  let response_json ← json_loads (pyStrip contentStr)
  response_json.index "phishingScore"

/-- `analyze_with_chatgpt(email_text, vt_results)`: the whole body sits in a
`try/except Exception as e` returning
`{"error": f"OpenAI API error: {str(e)}"}`, so the function is total.  The
prompt built from `email_text` and `vt_results` only influences the oracle's
reply, which is passed in directly. -/
def analyze_with_chatgpt (response : Except String JValue) : JValue :=
  match analyze_with_chatgpt_body response with
  | .ok v => v
  | .error e => .obj [("error", .str ("OpenAI API error: " ++ e))]

/-! ## Request handler (`analyze_email`, `POST /analyze`)

The handler reads `data.get('emailContent', '')` and calls
`extract_email_data` BEFORE entering its `try` block; only the calls to
`scan_links_with_virustotal` and `analyze_with_chatgpt` (and the `jsonify`)
are inside the `try`, whose `except Exception as e` returns
`jsonify({"error": str(e)}), 500`.  The embedding takes the extraction
outcome as an `Except` (a lenient parse that nevertheless raises is an
`Except.error`) and the two downstream oracles; an `Except.error` result of
the handler is an exception escaping the handler uncaught. -/

/-- An HTTP response: status code and JSON body. -/
structure HttpResponse : Type where
  status : Nat
  body : JValue

/-- The `/analyze` handler.  `extractR` is the outcome of
`extract_email_data(raw_email_content)` (run before the `try` block); `env`
drives the VirusTotal calls; `llm email_text vt_results` is the outcome of
the OpenAI call made by `analyze_with_chatgpt` for those arguments. -/
def analyze_email (extractR : Except String (String × List String))
    (env : VtEnv)
    (llm : String → List (String × JValue) → Except String JValue) :
    Except String HttpResponse :=
  match extractR with
  | .error e => .error e
  | .ok (email_text, links) =>
    match scan_links_with_virustotal env links with
    | .error e => .ok ⟨500, .obj [("error", .str e)]⟩
    | .ok vt_results =>
      let phishing_score := analyze_with_chatgpt (llm email_text vt_results)
      .ok ⟨200, .obj [("phishingScore", phishing_score),
        ("virusTotalResults", .obj vt_results)]⟩

/-! ## Shared concrete objects for witnesses and counterexamples -/

/-- The per-link record for a successful stats lookup, as the source builds
it from `stats.get(..., 0)`. -/
def statsRecord (stats : JValue) : JValue :=
  .obj [("malicious", (stats.getOpt "malicious").getD (.int 0)),
    ("suspicious", (stats.getOpt "suspicious").getD (.int 0)),
    ("undetected", (stats.getOpt "undetected").getD (.int 0))]

/-- An environment whose submission responses carry an analysis id and whose
details responses carry a stats dict (with `undetected` absent). -/
def envOkStats : VtEnv :=
  ⟨fun _ _ => .ok (.obj [("data", .obj [("id", .str "abc")])]),
   fun _ _ => .ok (.obj [("data", .obj [("attributes", .obj [("stats",
     .obj [("malicious", .int 5), ("suspicious", .int 2)])])])])⟩

/-- An environment whose details responses have `data.attributes` but no
`stats` key inside the attributes. -/
def envNoStatsKey : VtEnv :=
  ⟨fun _ _ => .ok (.obj [("data", .obj [("id", .str "abc")])]),
   fun _ _ => .ok (.obj [("data", .obj [("attributes", .obj [])])])⟩

/-- An environment whose details responses lack the `data` key entirely. -/
def envNoDetails : VtEnv :=
  ⟨fun _ _ => .ok (.obj [("data", .obj [("id", .str "abc")])]),
   fun _ _ => .ok (.obj [])⟩

/-- An environment whose submission responses lack an analysis id. -/
def envNoId : VtEnv :=
  ⟨fun _ _ => .ok (.obj [("message", .str "bad request")]),
   fun _ _ => .ok .null⟩

/-- An environment whose first submission call raises (transport failure) and
whose later calls would succeed. -/
def envRaiseFirst : VtEnv :=
  ⟨fun i url => if i == 0 then .error "network down" else envOkStats.submit i url,
   envOkStats.details⟩

/-- An environment that answers the first submission with a no-id response
and later submissions with an id plus stats: used to observe that a repeated
normalized link keeps only the later result. -/
def envLww : VtEnv :=
  ⟨fun i url => if i == 0 then envNoId.submit i url else envOkStats.submit i url,
   envOkStats.details⟩

/-- A stand-in OpenAI oracle whose call raises. -/
def llmDown : String → List (String × JValue) → Except String JValue :=
  fun _ _ => .error "llm unavailable"

/-- A model response whose content is the reply `{"phishingScore": 87}`
(braces escaped), wrapped in the `choices/message/content` envelope. -/
def reply87 : Except String JValue :=
  .ok (.obj [("choices", .arr [.obj [("message", .obj [("content",
    .str "\x7b\"phishingScore\": 87\x7d")])]])])

/-- A model response whose content is `{"phishingScore": 150}`: syntactically
valid, out of the advertised range. -/
def reply150 : Except String JValue :=
  .ok (.obj [("choices", .arr [.obj [("message", .obj [("content",
    .str "\x7b\"phishingScore\": 150\x7d")])]])])

/-- The mapping produced by `envLww` on the duplicate pair of links
`["x.com", "https://x.com"]` (both normalize to `"https://x.com"`): only
the second iteration's stats survive, the first iteration's
`Submission failed` record is overwritten. -/
def mLww : List (String × JValue) :=
  [("https://x.com", .obj [("malicious", .int 5), ("suspicious", .int 2),
    ("undetected", .int 0)])]

/-- A document with no anchor elements. -/
def docP : List HtmlNode :=
  [.elem "p" [] [.text "hello"]]

/-- A model response whose content is not JSON. -/
def replyNotJson : Except String JValue :=
  .ok (.obj [("choices", .arr [.obj [("message", .obj [("content",
    .str "I think it is phishing")])]])])
/-! ## Dict lemmas: Python assignment on the association-list model -/

theorem dictFind_dictInsert_self (d : List (String × JValue)) (k : String)
    (v : JValue) : dictFind (dictInsert d k v) k = some v := by
  induction d with
  | nil => simp [dictInsert, dictFind]
  | cons p d ih =>
    by_cases hp : p.1 = k
    · simp [dictInsert, dictFind, hp]
    · simp [dictInsert, dictFind, hp, ih]

theorem dictFind_dictInsert_ne (d : List (String × JValue)) (k k2 : String)
    (v : JValue) (h : k2 ≠ k) :
    dictFind (dictInsert d k v) k2 = dictFind d k2 := by
  induction d with
  | nil =>
    have : (k == k2) = false := beq_eq_false_iff_ne.mpr (Ne.symm h)
    simp [dictInsert, dictFind, this]
  | cons p d ih =>
    by_cases hp : p.1 = k
    · have h2 : (k == k2) = false := beq_eq_false_iff_ne.mpr (Ne.symm h)
      have h3 : (p.1 == k2) = false := by
        rw [hp]; exact h2
      simp [dictInsert, dictFind, hp, h2, h3]
    · by_cases hq : p.1 = k2
      · simp [dictInsert, dictFind, hp, hq, h]
      · simp [dictInsert, dictFind, hp, hq, ih]

theorem dictInsert_keys_mem (d : List (String × JValue)) (k k2 : String)
    (v : JValue) :
    k2 ∈ (dictInsert d k v).map Prod.fst ↔
      k2 ∈ d.map Prod.fst ∨ k2 = k := by
  induction d with
  | nil => simp [dictInsert]
  | cons p d ih =>
    by_cases hp : p.1 = k
    · simp [dictInsert, hp]
      tauto
    · simp [dictInsert, hp, ih]
      tauto

theorem dictInsert_keys_nodup (d : List (String × JValue)) (k : String)
    (v : JValue) (h : (d.map Prod.fst).Nodup) :
    ((dictInsert d k v).map Prod.fst).Nodup := by
  induction d with
  | nil => simp [dictInsert]
  | cons p d ih =>
    rw [List.map_cons, List.nodup_cons] at h
    by_cases hp : p.1 = k
    · rw [← hp]
      simpa [dictInsert, hp, List.nodup_cons] using h
    · rw [show dictInsert (p :: d) k v = p :: dictInsert d k v by
        simp [dictInsert, hp]]
      rw [List.map_cons, List.nodup_cons]
      refine ⟨?_, ih h.2⟩
      rw [dictInsert_keys_mem]
      rintro (hh | rfl)
      · exact h.1 hh
      · exact hp rfl

/-! ## Bind reduction helpers for the `Except` monad -/

theorem except_bind_ok {e a b : Type} (x : a) (f : a → Except e b) :
    (Except.ok x : Except e a) >>= f = f x := rfl

theorem except_bind_error {e a b : Type} (msg : e) (f : a → Except e b) :
    (Except.error msg : Except e a) >>= f = Except.error msg := rfl

theorem except_map_ok {e a b : Type} (f : a → b) (x : a) :
    f <$> (Except.ok x : Except e a) = Except.ok (f x) := rfl

theorem except_map_error {e a b : Type} (f : a → b) (msg : e) :
    f <$> (Except.error msg : Except e a) = Except.error msg := rfl

theorem except_pure {e a : Type} (x : a) :
    (pure x : Except e a) = Except.ok x := rfl

/-! ## The scan-loop invariant -/

/-- Characterization of a completed run of the scan loop from an arbitrary
accumulator: which keys the final dict has, that key uniqueness is
preserved, that keys not touched by this batch keep their value, and that
the key of a link's normalized form holds the value computed at its last
occurrence. -/
theorem scanGo_ok_spec (env : VtEnv) (links : List String) :
    ∀ (i : Nat) (acc m : List (String × JValue)),
      scanGo env i links acc = .ok m →
      (∀ k, k ∈ m.map Prod.fst ↔
        k ∈ acc.map Prod.fst ∨ ∃ l ∈ links, normalize_link l = k) ∧
      ((acc.map Prod.fst).Nodup → (m.map Prod.fst).Nodup) ∧
      (∀ k, (∀ l ∈ links, normalize_link l ≠ k) →
        dictFind m k = dictFind acc k) ∧
      (∀ j (hj : j < links.length),
        (∀ j2 (hj2 : j2 < links.length), j < j2 →
          normalize_link links[j2] ≠ normalize_link links[j]) →
        ∃ v, scanOne env (i + j) links[j] = .ok v ∧
          dictFind m (normalize_link links[j]) = some v) := by
  induction links with
  | nil =>
    intro i acc m h
    simp only [scanGo] at h
    cases h
    refine ⟨by simp, id, fun k _ => rfl, fun j hj => absurd hj (by simp)⟩
  | cons l ls ih =>
    intro i acc m h
    cases hv : scanOne env i l with
    | error e => simp [scanGo, hv] at h
    | ok v =>
      simp only [scanGo, hv] at h
      obtain ⟨hkeys, hnodup, hframe, hlast⟩ :=
        ih (i + 1) (dictInsert acc (normalize_link l) v) m h
      refine ⟨?_, ?_, ?_, ?_⟩
      · intro k
        rw [hkeys k, dictInsert_keys_mem]
        constructor
        · rintro ((hk | rfl) | ⟨l2, hl2, hn⟩)
          · exact Or.inl hk
          · exact Or.inr ⟨l, List.mem_cons_self l ls, rfl⟩
          · exact Or.inr ⟨l2, List.mem_cons_of_mem l hl2, hn⟩
        · rintro (hk | ⟨l2, hl2, hn⟩)
          · exact Or.inl (Or.inl hk)
          · rcases List.mem_cons.mp hl2 with rfl | hl3
            · exact Or.inl (Or.inr hn.symm)
            · exact Or.inr ⟨l2, hl3, hn⟩
      · intro hacc
        exact hnodup (dictInsert_keys_nodup acc (normalize_link l) v hacc)
      · intro k hk
        have hkl : normalize_link l ≠ k := hk l (List.mem_cons_self l ls)
        have hkls : ∀ l2 ∈ ls, normalize_link l2 ≠ k :=
          fun l2 hl2 => hk l2 (List.mem_cons_of_mem l hl2)
        rw [hframe k hkls]
        exact dictFind_dictInsert_ne acc (normalize_link l) k v
          (fun hh => hkl hh.symm)
      · intro j hj hocc
        match j with
        | 0 =>
          refine ⟨v, by simpa using hv, ?_⟩
          have hnotin : ∀ l2 ∈ ls, normalize_link l2 ≠ normalize_link l := by
            intro l2 hl2
            obtain ⟨j2, hj2, rfl⟩ := List.mem_iff_getElem.mp hl2
            have := hocc (j2 + 1) (by simpa using Nat.succ_lt_succ hj2)
              (Nat.succ_pos j2)
            simpa using this
          have hfr := hframe (normalize_link l) hnotin
          simp only [List.getElem_cons_zero]
          rw [hfr]
          exact dictFind_dictInsert_self acc (normalize_link l) v
        | j2 + 1 =>
          have hj2 : j2 < ls.length := by simpa using Nat.lt_of_succ_lt_succ hj
          have hocc2 : ∀ j3 (hj3 : j3 < ls.length), j2 < j3 →
              normalize_link ls[j3] ≠ normalize_link ls[j2] := by
            intro j3 hj3 hlt
            have := hocc (j3 + 1) (by simpa using Nat.succ_lt_succ hj3)
              (Nat.succ_lt_succ hlt)
            simpa using this
          obtain ⟨v2, hs2, hf2⟩ := hlast j2 hj2 hocc2
          refine ⟨v2, ?_, ?_⟩
          · have harith : i + (j2 + 1) = (i + 1) + j2 := by omega
            rw [harith]
            simpa using hs2
          · simpa using hf2

/-! ## Claim C5 -/

/-- C5: for every list of links, a completed scan returns a mapping with
exactly one entry per distinct normalized link — every input link has
exactly one entry under its normalized form, every key comes from some
input link — and when two input links normalize to the same string the
entry holds the value computed by the later iteration (last-write-wins). -/
theorem claim_C5_scan_mapping (env : VtEnv) (links : List String)
    (m : List (String × JValue))
    (h : scan_links_with_virustotal env links = .ok m) :
    (m.map Prod.fst).Nodup ∧
    (∀ l ∈ links, (m.map Prod.fst).count (normalize_link l) = 1) ∧
    (∀ k ∈ m.map Prod.fst, ∃ l ∈ links, normalize_link l = k) ∧
    (∀ j (hj : j < links.length),
      (∀ j2 (hj2 : j2 < links.length), j < j2 →
        normalize_link links[j2] ≠ normalize_link links[j]) →
      ∃ v, scanOne env j links[j] = .ok v ∧
        dictFind m (normalize_link links[j]) = some v) := by
  obtain ⟨hkeys, hnodup, hframe, hlast⟩ := scanGo_ok_spec env links 0 [] m h
  have hnd : (m.map Prod.fst).Nodup := hnodup (by simp)
  refine ⟨hnd, ?_, ?_, ?_⟩
  · intro l hl
    exact List.count_eq_one_of_mem hnd ((hkeys _).mpr (Or.inr ⟨l, hl, rfl⟩))
  · intro k hk
    rcases (hkeys k).mp hk with h0 | h1
    · simp at h0
    · exact h1
  · intro j hj hocc
    simpa using hlast j hj hocc

theorem claim_C5_witness :
    scan_links_with_virustotal envLww ["x.com", "https://x.com"] = .ok mLww ∧
    (mLww.map Prod.fst).Nodup ∧
    (mLww.map Prod.fst).count (normalize_link "x.com") = 1 ∧
    dictFind mLww (normalize_link "x.com") =
      some (.obj [("malicious", .int 5), ("suspicious", .int 2),
        ("undetected", .int 0)]) := by
  have h := claim_C5_scan_mapping envLww ["x.com", "https://x.com"] mLww rfl
  exact ⟨rfl, h.1, h.2.1 "x.com" (by simp), rfl⟩

/-! ## Claim C9 -/

/-- C9: a link that starts with neither `http://` nor `https://` gets
`https://` prepended before submission; a link that already carries one of
the two prefixes is submitted unchanged; the scanner consults the
submission oracle only at the normalized link (so the prepended form is
what is submitted), and a scan keys the link's record by the normalized
form. -/
theorem claim_C9_normalization :
    (∀ link, (pyStartswith link "http://" = false ∧
        pyStartswith link "https://" = false →
        normalize_link link = "https://" ++ link) ∧
      (pyStartswith link "http://" = true ∨
        pyStartswith link "https://" = true →
        normalize_link link = link)) ∧
    (∀ env env2 i link,
      env.submit i (normalize_link link) =
        env2.submit i (normalize_link link) →
      (∀ a, env.details i a = env2.details i a) →
      scanOne env i link = scanOne env2 i link) ∧
    (∀ env link m, scan_links_with_virustotal env [link] = .ok m →
      ∃ v, scanOne env 0 link = .ok v ∧ m = [(normalize_link link, v)]) := by
  refine ⟨?_, ?_, ?_⟩
  · intro link
    constructor
    · rintro ⟨h1, h2⟩
      simp [normalize_link, h1, h2]
    · intro h
      unfold normalize_link
      rw [if_neg]
      rintro ⟨h1, h2⟩
      rcases h with h | h
      · exact h1 h
      · exact h2 h
  · intro env env2 i link hs hd
    unfold scanOne
    rw [hs]
    simp only [hd]
  · intro env link m h
    rw [show scan_links_with_virustotal env [link] = scanGo env 0 [link] []
      from rfl] at h
    cases hv : scanOne env 0 link with
    | error e => simp [scanGo, hv] at h
    | ok v =>
      simp only [scanGo, hv, dictInsert] at h
      cases h
      exact ⟨v, rfl, rfl⟩

theorem claim_C9_witness :
    normalize_link "x.com" = "https://" ++ "x.com" ∧
    normalize_link "http://a.com" = "http://a.com" ∧
    normalize_link "https://b.com" = "https://b.com" ∧
    scanOne envOkStats 0 "x.com" = .ok (.obj [("malicious", .int 5),
      ("suspicious", .int 2), ("undetected", .int 0)]) :=
  ⟨(claim_C9_normalization.1 "x.com").1 ⟨rfl, rfl⟩,
   (claim_C9_normalization.1 "http://a.com").2 (Or.inl rfl),
   (claim_C9_normalization.1 "https://b.com").2 (Or.inr rfl),
   rfl⟩

/-! ## Claim C6 -/

/-- C6 counterexample: a submission call that raises (transport failure on
the first of two links) is not recorded as a per-link
`{error: "Submission failed"}`; the exception propagates and the scan of
the remaining link never happens — contradicting "such a per-link failure
never aborts the scan of the remaining links". -/
theorem claim_C6_counterexample :
    scan_links_with_virustotal envRaiseFirst ["a.com", "b.com"] =
      .error "network down" ∧
    scan_links_with_virustotal envRaiseFirst ["a.com", "b.com"] ≠
      .ok [("https://a.com", .obj [("error", .str "Submission failed")]),
        ("https://b.com", .obj [("malicious", .int 5), ("suspicious", .int 2),
          ("undetected", .int 0)])] :=
  ⟨rfl, fun h => nomatch h⟩

/-- C6 (amended): when the submission call returns a response lacking an
analysis identifier, `{error: "Submission failed"}` is recorded for that
link and the loop continues with the next link; but a submission (or its
response decoding) that raises propagates the exception and aborts the scan
of the remaining links. -/
theorem claim_C6_amended :
    (∀ env i link rd, env.submit i (normalize_link link) = .ok rd →
      (rd.hasKey "data" &&
        ((rd.getOpt "data").getD .null).hasKey "id") = false →
      scanOne env i link = .ok (.obj [("error", .str "Submission failed")])) ∧
    (∀ env i link rest acc v, scanOne env i link = .ok v →
      scanGo env i (link :: rest) acc =
        scanGo env (i + 1) rest (dictInsert acc (normalize_link link) v)) ∧
    (∀ env i link rest acc e, scanOne env i link = .error e →
      scanGo env i (link :: rest) acc = .error e) := by
  refine ⟨?_, ?_, ?_⟩
  · intro env i link rd hs hk
    simp [scanOne, hs, hk, except_bind_ok, except_pure]
  · intro env i link rest acc v hv
    simp [scanGo, hv]
  · intro env i link rest acc e he
    simp [scanGo, he]

theorem claim_C6_witness :
    scanOne envNoId 0 "x.com" =
      .ok (.obj [("error", .str "Submission failed")]) ∧
    scan_links_with_virustotal envNoId ["x.com", "y.com"] =
      .ok [("https://x.com", .obj [("error", .str "Submission failed")]),
        ("https://y.com", .obj [("error", .str "Submission failed")])] :=
  ⟨claim_C6_amended.1 envNoId 0 "x.com"
    (.obj [("message", .str "bad request")]) rfl rfl, rfl⟩

/-! ## Claim C2 -/

/-- C2 counterexample: the submission returns an analysis id and the details
response has `data.attributes` but no `stats` key inside the attributes —
the expected statistics structure is absent — yet the scan raises a
KeyError (aborting with an exception) instead of recording
`{error: "Details not found"}`. -/
theorem claim_C2_counterexample :
    scan_links_with_virustotal envNoStatsKey ["x.com"] =
      .error "KeyError: stats" ∧
    scan_links_with_virustotal envNoStatsKey ["x.com"] ≠
      .ok [("https://x.com", .obj [("error", .str "Details not found")])] :=
  ⟨rfl, fun h => nomatch h⟩

/-- C2 (amended): when the details response lacks the `data` key or its
`data` value lacks `attributes`, `{error: "Details not found"}` is recorded
for that link without raising; when `data.attributes` is present and holds a
`stats` dict, the malicious/suspicious/undetected counts are recorded with
each count defaulting to 0 when absent; but when `data.attributes` is
present as a dict without a `stats` key, the unguarded subscript raises a
KeyError that propagates out of the scan. -/
theorem claim_C2_amended (env : VtEnv) (i : Nat) (link : String)
    (rd dd : JValue)
    (hs : env.submit i (normalize_link link) = .ok rd)
    (hid : (rd.hasKey "data" &&
      ((rd.getOpt "data").getD .null).hasKey "id") = true)
    (hdet : env.details i
      (((rd.getOpt "data").getD .null).getOpt "id" |>.getD .null) = .ok dd) :
    ((dd.hasKey "data" &&
        ((dd.getOpt "data").getD .null).hasKey "attributes") = false →
      scanOne env i link = .ok (.obj [("error", .str "Details not found")])) ∧
    ((dd.hasKey "data" &&
        ((dd.getOpt "data").getD .null).hasKey "attributes") = true →
      (∀ sf, ((((dd.getOpt "data").getD .null).getOpt
          "attributes").getD .null).getOpt "stats" = some (.obj sf) →
        scanOne env i link = .ok (statsRecord (.obj sf))) ∧
      (((((dd.getOpt "data").getD .null).getOpt
          "attributes").getD .null).index "stats" = .error "KeyError: stats" →
        scanOne env i link = .error "KeyError: stats")) := by
  constructor
  · intro hno
    simp [scanOne, hs, hid, hdet, hno, except_bind_ok, except_pure]
  · intro hyes
    constructor
    · intro sf hsf
      simp [scanOne, hs, hid, hdet, hyes, JValue.index, hsf,
        JValue.dictGet, statsRecord, except_bind_ok,
        except_map_ok, except_pure]
    · intro herr
      simp [scanOne, hs, hid, hdet, hyes, herr, except_bind_ok,
        except_bind_error]

theorem claim_C2_witness :
    scanOne envNoDetails 0 "x.com" =
      .ok (.obj [("error", .str "Details not found")]) ∧
    scan_links_with_virustotal envNoDetails ["x.com"] =
      .ok [("https://x.com", .obj [("error", .str "Details not found")])] :=
  ⟨(claim_C2_amended envNoDetails 0 "x.com"
      (.obj [("data", .obj [("id", .str "abc")])]) (.obj [])
      rfl rfl rfl).1 rfl,
   rfl⟩

/-! ## Claim C1 -/

/-- C1 counterexample: an exception raised by the extraction step is not
caught by the handler — `extract_email_data` runs before the `try` block —
so the handler does not answer 500 with `{"error": <message>}`; the
exception escapes the handler uncaught. -/
theorem claim_C1_counterexample :
    analyze_email (.error "boom") envOkStats llmDown = .error "boom" ∧
    analyze_email (.error "boom") envOkStats llmDown ≠
      .ok ⟨500, .obj [("error", .str "boom")]⟩ :=
  ⟨rfl, fun h => nomatch h⟩

/-- C1 (amended): only the scanning and assessment steps run inside the
handler's try/except: an exception raised by scanning is caught and
answered with status 500 and body `{"error": <message>}` (assessment cannot
raise — it catches its own exceptions); an exception raised by extraction
propagates out of the handler uncaught. -/
theorem claim_C1_amended :
    (∀ text links env llm e,
      scan_links_with_virustotal env links = .error e →
      analyze_email (.ok (text, links)) env llm =
        .ok ⟨500, .obj [("error", .str e)]⟩) ∧
    (∀ env llm e, analyze_email (.error e) env llm = .error e) := by
  refine ⟨?_, fun env llm e => rfl⟩
  intro text links env llm e h
  simp [analyze_email, h]

theorem claim_C1_witness :
    scan_links_with_virustotal envNoStatsKey ["x.com"] =
      .error "KeyError: stats" ∧
    analyze_email (.ok ("", ["x.com"])) envNoStatsKey llmDown =
      .ok ⟨500, .obj [("error", .str "KeyError: stats")]⟩ :=
  ⟨rfl, claim_C1_amended.1 "" ["x.com"] envNoStatsKey llmDown
    "KeyError: stats" rfl⟩

/-! ## Claim C8 -/

/-- C8: whenever scanning completes without an uncaught exception (and
assessment, which never raises, runs), the handler returns 200 with both
`phishingScore` and `virusTotalResults`; the `phishingScore` field is
exactly the assessor's value, so an assessor-produced error object is
passed through unchanged rather than being converted to an HTTP error. -/
theorem claim_C8_success_path (text : String) (links : List String)
    (env : VtEnv)
    (llm : String → List (String × JValue) → Except String JValue)
    (vt : List (String × JValue))
    (h : scan_links_with_virustotal env links = .ok vt) :
    analyze_email (.ok (text, links)) env llm =
      .ok ⟨200, .obj [("phishingScore", analyze_with_chatgpt (llm text vt)),
        ("virusTotalResults", .obj vt)]⟩ := by
  simp [analyze_email, h]

theorem claim_C8_witness :
    scan_links_with_virustotal envOkStats ["http://a.com"] =
      .ok [("http://a.com", .obj [("malicious", .int 5),
        ("suspicious", .int 2), ("undetected", .int 0)])] ∧
    analyze_email (.ok ("hi", ["http://a.com"])) envOkStats llmDown =
      .ok ⟨200, .obj [("phishingScore",
        .obj [("error", .str "OpenAI API error: llm unavailable")]),
        ("virusTotalResults", .obj [("http://a.com",
          .obj [("malicious", .int 5), ("suspicious", .int 2),
            ("undetected", .int 0)])])]⟩ :=
  ⟨rfl, (claim_C8_success_path "hi" ["http://a.com"] envOkStats llmDown
    [("http://a.com", .obj [("malicious", .int 5), ("suspicious", .int 2),
      ("undetected", .int 0)])] rfl).trans rfl⟩

/-! ## Claim C3 -/

/-- C3 counterexample: the model reply `{"phishingScore": 150}` parses
successfully and contains the phishingScore field, yet the value returned
is 150, which is not in [0, 100]: the code performs no range validation on
the score. -/
theorem claim_C3_counterexample :
    analyze_with_chatgpt_body reply150 = .ok (.int 150) ∧
    analyze_with_chatgpt reply150 = .int 150 ∧
    ¬ ∃ n : Int, analyze_with_chatgpt reply150 = .int n ∧
      0 ≤ n ∧ n ≤ 100 := by
  refine ⟨rfl, rfl, ?_⟩
  rintro ⟨n, hn, h0, h1⟩
  have h2 : JValue.int 150 = JValue.int n := hn
  injection h2 with h3
  omega

/-- C3 (amended): when the model reply parses as JSON and contains the
phishingScore field, the returned value is that field verbatim — no range
check or clamping constrains it to [0, 100], and nothing forces it to be an
integer; it lies in [0, 100] only when the model's reply does. -/
theorem claim_C3_amended (response : Except String JValue) (v : JValue)
    (h : analyze_with_chatgpt_body response = .ok v) :
    analyze_with_chatgpt response = v := by
  simp [analyze_with_chatgpt, h]

theorem claim_C3_witness :
    analyze_with_chatgpt_body reply150 = .ok (.int 150) ∧
    analyze_with_chatgpt reply150 = .int 150 :=
  ⟨rfl, claim_C3_amended reply150 (.int 150) rfl⟩

/-! ## Claim C7 -/

/-- C7: assess never raises past its own boundary: every outcome is either
the successfully parsed field value, or — on any exception during the model
invocation or the reply parsing — the error object
`{"error": "OpenAI API error: <message>"}`; the syntactically valid reply
`{"phishingScore": 87}` yields 87, and a non-JSON reply yields an
"OpenAI API error: ..." object. -/
theorem claim_C7_assess_total :
    (∀ response, (∃ v, analyze_with_chatgpt_body response = .ok v ∧
        analyze_with_chatgpt response = v) ∨
      (∃ msg, analyze_with_chatgpt_body response = .error msg ∧
        analyze_with_chatgpt response =
          .obj [("error", .str ("OpenAI API error: " ++ msg))])) ∧
    analyze_with_chatgpt reply87 = .int 87 ∧
    analyze_with_chatgpt (.error "connection refused") =
      .obj [("error", .str "OpenAI API error: connection refused")] ∧
    analyze_with_chatgpt replyNotJson =
      .obj [("error", .str "OpenAI API error: json: unexpected character")] := by
  refine ⟨?_, rfl, rfl, rfl⟩
  intro response
  cases h : analyze_with_chatgpt_body response with
  | ok v => exact Or.inl ⟨v, rfl, by simp [analyze_with_chatgpt, h]⟩
  | error msg => exact Or.inr ⟨msg, rfl, by simp [analyze_with_chatgpt, h]⟩

/-! ## Claim C4 -/

/-- C4 counterexample: an anchor carrying `href=""` is matched by the
`href=True` filter (which accepts any present attribute value) and
contributes `""` to links, so links has length 1 while the number of
anchor elements with a non-empty href is 0. -/
theorem claim_C4_counterexample :
    findAllHrefs [.elem "a" [("href", "")] [.text "Reset"]] = [""] ∧
    (findAllHrefs [.elem "a" [("href", "")] [.text "Reset"]]).length = 1 ∧
    specCountAnchorsNonEmptyHref [.elem "a" [("href", "")] [.text "Reset"]]
      = 0 := by
  refine ⟨?_, ?_, ?_⟩ <;> simp [findAllHrefs, specCountAnchorsNonEmptyHref]

/-- C4 (amended): extract returns links as the ordered sequence of href
values of the anchor elements that carry an href attribute (duplicates and
document order preserved); its length equals the number of anchor elements
carrying an href attribute — anchors whose href value is the empty string
included, which the claim's "non-empty href" count misses. -/
theorem claim_C4_amended (doc : List HtmlNode) :
    (extract_email_data doc).2 = findAllHrefs doc ∧
    (findAllHrefs doc).length = countAnchorsWithHref doc := by
  refine ⟨rfl, ?_⟩
  induction doc using findAllHrefs.induct with
  | case1 => simp [findAllHrefs, countAnchorsWithHref]
  | case2 s rest ih => simp [findAllHrefs, countAnchorsWithHref, ih]
  | case3 tag attrs children rest ih1 ih2 =>
    by_cases h : (tag == "a" && attrs.any (fun p => p.1 == "href")) = true
    · simp [findAllHrefs, countAnchorsWithHref, h, ih1, ih2]
      omega
    · simp [findAllHrefs, countAnchorsWithHref, h, ih1, ih2]

/-! ## Claim C10 -/

/-- A document without anchor elements yields no links. -/
theorem findAllHrefs_of_no_anchors (doc : List HtmlNode)
    (h : countAnchors doc = 0) : findAllHrefs doc = [] := by
  induction doc using findAllHrefs.induct with
  | case1 => simp [findAllHrefs]
  | case2 s rest ih =>
    simp only [countAnchors] at h
    simp [findAllHrefs, ih h]
  | case3 tag attrs children rest ih1 ih2 =>
    simp only [countAnchors] at h
    by_cases ht : (tag == "a") = true
    · rw [ht] at h
      simp at h
    · rw [if_neg ht] at h
      simp [findAllHrefs, ht, ih1 (by omega), ih2 (by omega)]

/-- C10: scanning the empty link list returns the empty mapping (the loop
never runs, no network call is made, no exception can arise); a document
with no anchor elements extracts no links; hence any such submission takes
the success path: 200 with `virusTotalResults` equal to the empty
mapping. -/
theorem claim_C10_empty :
    (∀ env, scan_links_with_virustotal env [] = .ok []) ∧
    (∀ doc, countAnchors doc = 0 → findAllHrefs doc = []) ∧
    (∀ doc env llm, countAnchors doc = 0 →
      analyze_email (.ok (extract_email_data doc)) env llm =
        .ok ⟨200, .obj [("phishingScore",
          analyze_with_chatgpt (llm (extract_email_data doc).1 [])),
          ("virusTotalResults", .obj [])]⟩) := by
  refine ⟨fun env => rfl, findAllHrefs_of_no_anchors, ?_⟩
  intro doc env llm h
  have hl : findAllHrefs doc = [] := findAllHrefs_of_no_anchors doc h
  simp [analyze_email, extract_email_data, hl, scan_links_with_virustotal,
    scanGo]

theorem claim_C10_witness :
    countAnchors docP = 0 ∧
    analyze_email (.ok (extract_email_data docP)) envOkStats llmDown =
      .ok ⟨200, .obj [("phishingScore",
        .obj [("error", .str "OpenAI API error: llm unavailable")]),
        ("virusTotalResults", .obj [])]⟩ := by
  have hc : countAnchors docP = 0 := by simp [docP, countAnchors]
  exact ⟨hc, (claim_C10_empty.2.2 docP envOkStats llmDown hc).trans rfl⟩
